import Mathlib

/-!
Verification of `src/library_manager.py` (Personal Library Manager).

The program is a single Python class `PersonalLibraryManager` holding an
in-memory list of book records (dicts with keys title, author, year, genre,
read) and persisting it to a primary JSON file and a backup JSON file.

Embedding conventions:
* A book dict is the structure `Book`; the in-memory library is `List Book`.
* Python/JSON values produced by `json.load` are the inductive `PyVal`.
* The `json` module is modelled by its contract: `json.dump` writes a text
  whose `json.load` parse is the written value itself, so a file is modelled
  as holding the parsed value (`FileState.stored v`), or `FileState.malformed`
  when `json.load` would raise `JSONDecodeError`, or `FileState.missing` when
  `open` would raise `FileNotFoundError`.
* Interactive `input()` calls become explicit string parameters; the
  `while True` year-retry loop of `add_book` consumes a list of candidate
  inputs and is modelled by recursion over that list (an empty/exhausted
  list means the loop is still prompting, so the operation has not happened).
* Python `str.strip`, `str.lower`, the substring test `in`, and `int()` are
  modelled by `pyStrip`, `pyLower`, `pyIn`, `pyInt` below (`lower` on the
  ASCII range, `int()` on the CPython grammar sign + digits with optional
  single underscores between digits, surrounded by whitespace).
-/

/-- A book record: the dict
`{"title": ..., "author": ..., "year": ..., "genre": ..., "read": ...}`
built in `add_book` (src/library_manager.py line 53). -/
structure Book where
  title : String
  author : String
  year : Int
  genre : String
  read : Bool
deriving Repr, DecidableEq

/-- Python values as returned by `json.load`. -/
inductive PyVal where
  | str (s : String)
  | int (n : Int)
  | bool (b : Bool)
  | null
  | list (xs : List PyVal)
  | dict (kvs : List (String × PyVal))
deriving Repr

/-- State of one on-disk file, at the granularity `load_library` observes. -/
inductive FileState where
  | missing
  | malformed
  | stored (v : PyVal)
deriving Repr

/-- The two files written by `save_library`: `self.filename` ("library.json")
and `self.backup_filename` ("library_backup.json"). -/
structure Storage where
  primaryFile : FileState
  backupFile : FileState
deriving Repr

/-! ### Python string primitives -/

/-- Characters for which Python `str.isspace()` holds (the set stripped by
`str.strip()` with no argument). -/
def isPyWhitespace (c : Char) : Bool :=
  c == ' ' || c == '\t' || c == '\n' || c == '\r' ||
  c == '\x0b' || c == '\x0c' ||
  c.val == 0x1c || c.val == 0x1d || c.val == 0x1e || c.val == 0x1f ||
  c.val == 0x85 || c.val == 0xa0 || c.val == 0x1680 ||
  (0x2000 ≤ c.val && c.val ≤ 0x200a) ||
  c.val == 0x2028 || c.val == 0x2029 || c.val == 0x202f ||
  c.val == 0x205f || c.val == 0x3000

/-- Python `s.strip()`: remove leading and trailing whitespace. -/
def pyStrip (s : String) : String :=
  String.mk (((s.toList.dropWhile isPyWhitespace).reverse.dropWhile
    isPyWhitespace).reverse)

/-- Python `s.lower()`, restricted to the ASCII case mapping (`Char.toLower`
maps `A`–`Z` to `a`–`z` and fixes everything else; non-ASCII one-to-many
case foldings do not arise in any claim). -/
def pyLower (s : String) : String :=
  String.mk (s.toList.map Char.toLower)

/-- `listLead n h` holds when `n` is an initial segment of `h`. -/
def listLead : List Char → List Char → Bool
  | [], _ => true
  | _ :: _, [] => false
  | a :: as, b :: bs => a == b && listLead as bs

/-- `listHasSub n h`: `n` occurs contiguously inside `h`. -/
def listHasSub (needle : List Char) : List Char → Bool
  | [] => listLead needle []
  | hay@(_ :: rest) => listLead needle hay || listHasSub needle rest

/-- Python `needle in haystack` on strings: contiguous substring test. -/
def pyIn (needle haystack : String) : Bool :=
  listHasSub needle.toList haystack.toList

/-! ### Python `int()` on strings -/

/-- Tail of a CPython digit run after its first digit:
`(["_"] digit)*` — underscores only singly and strictly between digits. -/
def digitRunRest : List Char → Bool
  | [] => true
  | '_' :: c :: rest => c.isDigit && digitRunRest rest
  | '_' :: [] => false
  | c :: rest => c.isDigit && digitRunRest rest

/-- A CPython `digitpart`: `digit (["_"] digit)*`. -/
def digitRun : List Char → Bool
  | [] => false
  | c :: rest => c.isDigit && digitRunRest rest

/-- Numeric value of a digit run, ignoring underscores. -/
def digitsVal (cs : List Char) : Nat :=
  (cs.filter (· ≠ '_')).foldl (fun acc c => 10 * acc + (c.toNat - '0'.toNat)) 0

/-- Value of a signed digit run, or `none` if the characters are not a
CPython integer literal body. -/
def signedVal : List Char → Option Int
  | '+' :: ds => if digitRun ds then some (digitsVal ds) else none
  | '-' :: ds => if digitRun ds then some (-(digitsVal ds : Int)) else none
  | ds => if digitRun ds then some (digitsVal ds) else none

/-- Python `int(s)`: `some n` when the call returns `n`, `none` when it
raises `ValueError`. -/
def pyInt (s : String) : Option Int :=
  signedVal (pyStrip s).toList

/-! ### JSON encoding of the library -/

/-- The JSON value `json.dump` writes for one book dict. -/
def encodeBook (b : Book) : PyVal :=
  .dict [("title", .str b.title), ("author", .str b.author),
         ("year", .int b.year), ("genre", .str b.genre),
         ("read", .bool b.read)]

/-- The JSON value `json.dump(self.library, ...)` writes for the whole
library: an array of book objects. -/
def encodeLibrary (lib : List Book) : PyVal :=
  .list (lib.map encodeBook)

/-- Read one book object back from a JSON value; `none` when the value does
not have the book-record shape. -/
def decodeBook : PyVal → Option Book
  | .dict [(k1, .str t), (k2, .str a), (k3, .int y), (k4, .str g),
           (k5, .bool r)] =>
    if k1 = "title" ∧ k2 = "author" ∧ k3 = "year" ∧ k4 = "genre" ∧ k5 = "read"
    then some ⟨t, a, y, g, r⟩ else none
  | _ => none

/-- Read a list of book objects back from a list of JSON values. -/
def decodeBooks : List PyVal → Option (List Book)
  | [] => some []
  | v :: vs =>
    match decodeBook v, decodeBooks vs with
    | some b, some bs => some (b :: bs)
    | _, _ => none

/-- Read a whole library back from a JSON value; `none` when the value is
not an array of book objects. -/
def decodeLibrary : PyVal → Option (List Book)
  | .list vs => decodeBooks vs
  | _ => none

/-! ### Store -/

/-- `load_library` (src/library_manager.py lines 14–23): return the parsed
file contents; on `FileNotFoundError` or `JSONDecodeError` return `[]`.
The function is total: those are the only exceptions the read can raise in
this model, so no error reaches the caller. -/
def load_library : FileState → PyVal
  | .missing => .list []
  | .malformed => .list []
  | .stored v => v

/-- `save_library` (src/library_manager.py lines 25–32): overwrite the
primary file and then the backup file, each with the full serialization of
`self.library`. -/
def save_library (library : List Book) (_st : Storage) : Storage :=
  { primaryFile := .stored (encodeLibrary library),
    backupFile := .stored (encodeLibrary library) }

/-! ### Catalog operations -/

/-- The title comparison `book["title"].lower() == title.lower()` used by
`remove_book` and `mark_as_read_unread`. -/
def titleMatches (query : String) (b : Book) : Bool :=
  pyLower b.title == pyLower query

/-- The `while True` year loop of `add_book` (src/library_manager.py
lines 41–49) over a supplied sequence of input attempts: `int(...)` raising
`ValueError` or an out-of-range value keeps prompting; the first value in
`[1000, 9999]` breaks the loop. `none` means the supplied attempts were
exhausted with the loop still prompting. -/
def readYear : List String → Option Int
  | [] => none
  | s :: rest =>
    match pyInt s with
    | some y => if 1000 ≤ y ∧ y ≤ 9999 then some y else readYear rest
    | none => readYear rest

/-- The read-status line of `add_book` (src/library_manager.py line 51):
`input(...).strip().lower() == "yes"`. -/
def readStatusOfAnswer (ans : String) : Bool :=
  pyLower (pyStrip ans) == "yes"

/-- `add_book` (src/library_manager.py lines 34–55) with its five `input()`
reads made explicit (`yearInputs` feeds the retry loop). `none` when the
year loop never received a valid year, so no record was appended and no
save ran. -/
def add_book (title author : String) (yearInputs : List String)
    (genre readAnswer : String) (lib : List Book) (st : Storage) :
    Option (List Book × Storage) :=
  match readYear yearInputs with
  | none => none
  | some year =>
    let lib' := lib ++ [{ title := title, author := author, year := year,
                          genre := genre, read := readStatusOfAnswer readAnswer }]
    some (lib', save_library lib' st)

/-- `remove_book` (src/library_manager.py lines 57–74): `title` and
`confirm` are the two `input()` reads (`confirm` is only consulted when
matches exist, as in the source). Returns the new library, the new storage
and the printed message. -/
def remove_book (title confirm : String) (lib : List Book) (st : Storage) :
    List Book × Storage × String :=
  let matching_books := lib.filter (titleMatches title)
  if matching_books = [] then
    (lib, st, "Book not found!\n")
  else if pyLower (pyStrip confirm) == "yes" then
    let lib' := lib.filter (fun b => !(titleMatches title b))
    (lib', save_library lib' st, "Book removed successfully!\n")
  else
    (lib, st, "Book removal cancelled.\n")

/-- `search_book` (src/library_manager.py lines 76–89): `choice` is the
field-selector answer (read but never used by the filter, as in the
source); `query` is lowercased and tested as a substring of the lowercased
title or the lowercased author of each book. -/
def search_book (_choice query : String) (lib : List Book) : List Book :=
  let q := pyLower query
  lib.filter (fun book => pyIn q (pyLower book.title) ||
                          pyIn q (pyLower book.author))

/-- `display_statistics` (src/library_manager.py lines 102–109): the total
count and the percentage read, as the pair of numbers the two prints show
(`0` for the percentage when the library is empty). Real-number division is
used where CPython uses floats. -/
def display_statistics (lib : List Book) : Nat × ℚ :=
  let total_books := lib.length
  let read_books := (lib.filter (fun b => b.read)).length
  (total_books,
    if total_books ≠ 0 then (read_books : ℚ) / (total_books : ℚ) * 100 else 0)

/-- The `for` loop of `mark_as_read_unread` (src/library_manager.py
lines 123–128): flip the `read` flag of the first title match and return
the updated library together with the updated book; `none` when no book
matches. -/
def toggleFirst (title : String) : List Book → Option (List Book × Book)
  | [] => none
  | b :: bs =>
    if titleMatches title b then
      some (({ b with read := !b.read }) :: bs, { b with read := !b.read })
    else
      (toggleFirst title bs).map (fun p => (b :: p.1, p.2))

/-- `mark_as_read_unread` (src/library_manager.py lines 118–129): on the
first title match, flip its flag, save, and report the new status; with no
match, leave everything unchanged and report not-found. -/
def mark_as_read_unread (title : String) (lib : List Book) (st : Storage) :
    List Book × Storage × String :=
  match toggleFirst title lib with
  | some (lib', b) =>
    (lib', save_library lib' st,
      "Updated " ++ b.title ++ " to " ++
        (if b.read then "Read" else "Unread") ++ ".\n")
  | none => (lib, st, "Book not found!\n")

theorem decodeBook_encodeBook (b : Book) : decodeBook (encodeBook b) = some b := by
  simp [decodeBook, encodeBook]

theorem decodeBooks_encode (lib : List Book) :
    decodeBooks (lib.map encodeBook) = some lib := by
  induction lib with
  | nil => rfl
  | cons b bs ih => simp [decodeBooks, decodeBook_encodeBook, ih]

theorem readYear_range (ys : List String) (y : Int) (h : readYear ys = some y) :
    1000 ≤ y ∧ y ≤ 9999 := by
  induction ys with
  | nil => simp [readYear] at h
  | cons s rest ih =>
    rw [readYear] at h
    cases hp : pyInt s with
    | none => simp only [hp] at h; exact ih h
    | some z =>
      simp only [hp] at h
      by_cases hz : 1000 ≤ z ∧ z ≤ 9999
      · rw [if_pos hz] at h; cases h; exact hz
      · rw [if_neg hz] at h; exact ih h

theorem toggleFirst_of_no_match (title : String) (lib : List Book)
    (h : ∀ x ∈ lib, titleMatches title x = false) :
    toggleFirst title lib = none := by
  induction lib with
  | nil => rfl
  | cons b bs ih =>
    have hb := h b (List.mem_cons_self b bs)
    simp [toggleFirst, hb, ih fun x hx => h x (List.mem_cons_of_mem b hx)]

theorem toggleFirst_of_match (title : String) (lib : List Book)
    (h : ∃ x ∈ lib, titleMatches title x = true) :
    ∃ p, toggleFirst title lib = some p := by
  induction lib with
  | nil => simp at h
  | cons b bs ih =>
    by_cases hb : titleMatches title b
    · exact ⟨(({ b with read := !b.read }) :: bs, { b with read := !b.read }),
        by simp [toggleFirst, hb]⟩
    · obtain ⟨x, hx, hmx⟩ := h
      rcases List.mem_cons.mp hx with hxb | hxs
      · exact absurd (hxb ▸ hmx) (by simp [hb])
      · obtain ⟨p, hp⟩ := ih ⟨x, hxs, hmx⟩
        exact ⟨(b :: p.1, p.2), by simp [toggleFirst, hb, hp]⟩

theorem toggleFirst_first_match (title : String) (pre post : List Book) (b : Book)
    (hpre : ∀ x ∈ pre, titleMatches title x = false)
    (hb : titleMatches title b = true) :
    toggleFirst title (pre ++ b :: post) =
      some (pre ++ ({ b with read := !b.read }) :: post,
            { b with read := !b.read }) := by
  induction pre with
  | nil => simp [toggleFirst, hb]
  | cons c cs ih =>
    have hc := hpre c (List.mem_cons_self c cs)
    simp [toggleFirst, hc, ih fun x hx => hpre x (List.mem_cons_of_mem c hx)]

theorem toggleFirst_twice (title : String) (lib lib' : List Book) (c : Book)
    (h : toggleFirst title lib = some (lib', c)) :
    toggleFirst title lib' = some (lib, { c with read := !c.read }) := by
  induction lib generalizing lib' c with
  | nil => simp [toggleFirst] at h
  | cons b bs ih =>
    by_cases hb : titleMatches title b
    · simp only [toggleFirst, if_pos hb, Option.some.injEq, Prod.mk.injEq] at h
      obtain ⟨h1, h2⟩ := h
      subst h1
      subst h2
      have hb' : titleMatches title ({ b with read := !b.read }) = true := hb
      cases b
      simp [toggleFirst, hb', Bool.not_not] at hb' ⊢
    · simp only [toggleFirst, if_neg hb, Option.map_eq_some'] at h
      obtain ⟨p, hp, heq⟩ := h
      obtain ⟨p1, p2⟩ := p
      cases heq
      simp only [toggleFirst, if_neg hb, ih p1 p2 hp, Option.map_some']

/-- C1: saving any library and then loading from the primary file in a fresh
instance yields exactly the serialization of the saved library, and that
value decodes to the same ordered list of records (save/load round-trip). -/
theorem save_load_round_trip (lib : List Book) (st : Storage) :
    load_library (save_library lib st).primaryFile = encodeLibrary lib ∧
    decodeLibrary (load_library (save_library lib st).primaryFile) = some lib := by
  refine ⟨rfl, ?_⟩
  simp [load_library, save_library, encodeLibrary, decodeLibrary,
    decodeBooks_encode]

/-- C2: `load_library` on a missing primary file, or on one whose contents
cannot be parsed by `json.load`, returns the empty catalog; being a total
function of the file state, it surfaces no error to the caller. -/
theorem load_missing_or_malformed (f : FileState)
    (h : f = FileState.missing ∨ f = FileState.malformed) :
    load_library f = PyVal.list [] := by
  rcases h with h | h <;> subst h <;> rfl

theorem load_missing_or_malformed_witness :
    (FileState.missing = FileState.missing ∨
      FileState.missing = FileState.malformed) ∧
    load_library FileState.missing = PyVal.list [] :=
  ⟨Or.inl rfl, load_missing_or_malformed FileState.missing (Or.inl rfl)⟩

/-- C3: `remove_book` with at least one case-insensitive title match and the
confirmation answer "yes" keeps exactly the non-matching records: the result
is the filter of the library by non-matching titles, is a sublist of the
original (so relative order is preserved and nothing is added), contains no
matching record, and retains every non-matching record. -/
theorem remove_book_confirmed (title confirm : String) (lib : List Book)
    (st : Storage)
    (hmatch : lib.filter (titleMatches title) ≠ [])
    (hconfirm : pyLower (pyStrip confirm) = "yes") :
    (remove_book title confirm lib st).1 =
      lib.filter (fun b => !(titleMatches title b)) ∧
    List.Sublist (remove_book title confirm lib st).1 lib ∧
    (∀ b ∈ lib, titleMatches title b = true →
      b ∉ (remove_book title confirm lib st).1) ∧
    (∀ b ∈ lib, titleMatches title b = false →
      b ∈ (remove_book title confirm lib st).1) := by
  have hres : (remove_book title confirm lib st).1 =
      lib.filter (fun b => !(titleMatches title b)) := by
    simp [remove_book, hmatch, hconfirm]
  refine ⟨hres, ?_, ?_, ?_⟩
  · rw [hres]; exact List.filter_sublist lib
  · intro b _ hmb
    rw [hres]
    simp [List.mem_filter, hmb]
  · intro b hb hmb
    rw [hres]
    simp [List.mem_filter, hb, hmb]

theorem remove_book_confirmed_witness :
    ([⟨"Dune", "Frank Herbert", 1965, "Sci-Fi", false⟩,
      ⟨"dune", "Brian Herbert", 1999, "Sci-Fi", true⟩,
      ⟨"Foundation", "Isaac Asimov", 1951, "Sci-Fi", false⟩] :
        List Book).filter (titleMatches "Dune") ≠ [] ∧
    pyLower (pyStrip "yes") = "yes" ∧
    ((remove_book "Dune" "yes"
        [⟨"Dune", "Frank Herbert", 1965, "Sci-Fi", false⟩,
         ⟨"dune", "Brian Herbert", 1999, "Sci-Fi", true⟩,
         ⟨"Foundation", "Isaac Asimov", 1951, "Sci-Fi", false⟩]
        ⟨FileState.missing, FileState.missing⟩).1 =
      ([⟨"Dune", "Frank Herbert", 1965, "Sci-Fi", false⟩,
        ⟨"dune", "Brian Herbert", 1999, "Sci-Fi", true⟩,
        ⟨"Foundation", "Isaac Asimov", 1951, "Sci-Fi", false⟩] :
          List Book).filter (fun b => !(titleMatches "Dune" b)) ∧
     List.Sublist (remove_book "Dune" "yes"
        [⟨"Dune", "Frank Herbert", 1965, "Sci-Fi", false⟩,
         ⟨"dune", "Brian Herbert", 1999, "Sci-Fi", true⟩,
         ⟨"Foundation", "Isaac Asimov", 1951, "Sci-Fi", false⟩]
        ⟨FileState.missing, FileState.missing⟩).1
       [⟨"Dune", "Frank Herbert", 1965, "Sci-Fi", false⟩,
        ⟨"dune", "Brian Herbert", 1999, "Sci-Fi", true⟩,
        ⟨"Foundation", "Isaac Asimov", 1951, "Sci-Fi", false⟩] ∧
     (∀ b ∈ ([⟨"Dune", "Frank Herbert", 1965, "Sci-Fi", false⟩,
        ⟨"dune", "Brian Herbert", 1999, "Sci-Fi", true⟩,
        ⟨"Foundation", "Isaac Asimov", 1951, "Sci-Fi", false⟩] : List Book),
        titleMatches "Dune" b = true →
        b ∉ (remove_book "Dune" "yes"
          [⟨"Dune", "Frank Herbert", 1965, "Sci-Fi", false⟩,
           ⟨"dune", "Brian Herbert", 1999, "Sci-Fi", true⟩,
           ⟨"Foundation", "Isaac Asimov", 1951, "Sci-Fi", false⟩]
          ⟨FileState.missing, FileState.missing⟩).1) ∧
     (∀ b ∈ ([⟨"Dune", "Frank Herbert", 1965, "Sci-Fi", false⟩,
        ⟨"dune", "Brian Herbert", 1999, "Sci-Fi", true⟩,
        ⟨"Foundation", "Isaac Asimov", 1951, "Sci-Fi", false⟩] : List Book),
        titleMatches "Dune" b = false →
        b ∈ (remove_book "Dune" "yes"
          [⟨"Dune", "Frank Herbert", 1965, "Sci-Fi", false⟩,
           ⟨"dune", "Brian Herbert", 1999, "Sci-Fi", true⟩,
           ⟨"Foundation", "Isaac Asimov", 1951, "Sci-Fi", false⟩]
          ⟨FileState.missing, FileState.missing⟩).1)) :=
  ⟨by decide, by decide,
    remove_book_confirmed "Dune" "yes"
      [⟨"Dune", "Frank Herbert", 1965, "Sci-Fi", false⟩,
       ⟨"dune", "Brian Herbert", 1999, "Sci-Fi", true⟩,
       ⟨"Foundation", "Isaac Asimov", 1951, "Sci-Fi", false⟩]
      ⟨FileState.missing, FileState.missing⟩ (by decide) (by decide)⟩

/-- C4: `remove_book` changes nothing when no record's title matches the
query case-insensitively (it reports not-found), and likewise changes
nothing when matches exist but the confirmation answer is not "yes" (it
reports cancellation); in both cases the library, the files and the message
are exactly as stated. -/
theorem remove_book_no_change (title confirm : String) (lib : List Book)
    (st : Storage) :
    ((∀ b ∈ lib, titleMatches title b = false) →
      remove_book title confirm lib st = (lib, st, "Book not found!\n")) ∧
    (lib.filter (titleMatches title) ≠ [] →
      pyLower (pyStrip confirm) ≠ "yes" →
      remove_book title confirm lib st =
        (lib, st, "Book removal cancelled.\n")) := by
  constructor
  · intro h
    have hnil : lib.filter (titleMatches title) = [] := by
      rw [List.filter_eq_nil_iff]
      intro b hb
      simp [h b hb]
    simp [remove_book, hnil]
  · intro h1 h2
    have hbeq : (pyLower (pyStrip confirm) == "yes") = false := by
      simpa using h2
    simp [remove_book, h1, hbeq]

theorem remove_book_no_change_witness :
    (∀ b ∈ ([⟨"Foundation", "Isaac Asimov", 1951, "Sci-Fi", false⟩] :
        List Book), titleMatches "Dune" b = false) ∧
    remove_book "Dune" "yes"
      [⟨"Foundation", "Isaac Asimov", 1951, "Sci-Fi", false⟩]
      ⟨FileState.missing, FileState.missing⟩ =
      ([⟨"Foundation", "Isaac Asimov", 1951, "Sci-Fi", false⟩],
        ⟨FileState.missing, FileState.missing⟩, "Book not found!\n") ∧
    ([⟨"Foundation", "Isaac Asimov", 1951, "Sci-Fi", false⟩] :
        List Book).filter (titleMatches "foundation") ≠ [] ∧
    pyLower (pyStrip "no") ≠ "yes" ∧
    remove_book "foundation" "no"
      [⟨"Foundation", "Isaac Asimov", 1951, "Sci-Fi", false⟩]
      ⟨FileState.missing, FileState.missing⟩ =
      ([⟨"Foundation", "Isaac Asimov", 1951, "Sci-Fi", false⟩],
        ⟨FileState.missing, FileState.missing⟩,
        "Book removal cancelled.\n") :=
  ⟨by decide,
   (remove_book_no_change "Dune" "yes"
      [⟨"Foundation", "Isaac Asimov", 1951, "Sci-Fi", false⟩]
      ⟨FileState.missing, FileState.missing⟩).1 (by decide),
   by decide, by decide,
   (remove_book_no_change "foundation" "no"
      [⟨"Foundation", "Isaac Asimov", 1951, "Sci-Fi", false⟩]
      ⟨FileState.missing, FileState.missing⟩).2 (by decide) (by decide)⟩

/-- C5: `search_book` ignores the field-selector answer entirely: any two
selector answers give the same result, the result is the subsequence of the
catalog (in order) of exactly those records whose lowercased title or
lowercased author contains the lowercased query, and a query matching only
the author is returned even when the selector chose title. -/
theorem search_book_cross_field (choice choice2 query : String)
    (lib : List Book) :
    search_book choice query lib = search_book choice2 query lib ∧
    List.Sublist (search_book choice query lib) lib ∧
    (∀ b, b ∈ search_book choice query lib ↔ b ∈ lib ∧
      (pyIn (pyLower query) (pyLower b.title) ||
       pyIn (pyLower query) (pyLower b.author)) = true) ∧
    search_book "1" "asimov"
      [⟨"Foundation", "Isaac Asimov", 1951, "Sci-Fi", false⟩] =
      [⟨"Foundation", "Isaac Asimov", 1951, "Sci-Fi", false⟩] := by
  refine ⟨rfl, List.filter_sublist lib, ?_, by decide⟩
  intro b
  simp [search_book, List.mem_filter]

theorem search_book_cross_field_witness :
    search_book "1" "asimov"
      [⟨"Foundation", "Isaac Asimov", 1951, "Sci-Fi", false⟩] =
    search_book "2" "asimov"
      [⟨"Foundation", "Isaac Asimov", 1951, "Sci-Fi", false⟩] ∧
    (⟨"Foundation", "Isaac Asimov", 1951, "Sci-Fi", false⟩ : Book) ∈
      search_book "1" "asimov"
        [⟨"Foundation", "Isaac Asimov", 1951, "Sci-Fi", false⟩] :=
  ⟨(search_book_cross_field "1" "2" "asimov"
      [⟨"Foundation", "Isaac Asimov", 1951, "Sci-Fi", false⟩]).1,
   ((search_book_cross_field "1" "2" "asimov"
      [⟨"Foundation", "Isaac Asimov", 1951, "Sci-Fi", false⟩]).2.2.1
      ⟨"Foundation", "Isaac Asimov", 1951, "Sci-Fi", false⟩).mpr
     ⟨by decide, by decide⟩⟩

/-- C6: when the catalog splits as `pre ++ b :: post` with no match in `pre`
and `b` a case-insensitive title match, `mark_as_read_unread` flips exactly
`b`'s read flag and keeps every other record as it was; whenever some record
matches, applying the operation twice restores the original catalog; and
with no match at all it changes nothing and reports not-found. -/
theorem mark_as_read_unread_spec (title : String) (lib pre post : List Book)
    (b : Book) (st st2 : Storage) :
    (lib = pre ++ b :: post → (∀ x ∈ pre, titleMatches title x = false) →
      titleMatches title b = true →
      (mark_as_read_unread title lib st).1 =
        pre ++ ({ b with read := !b.read }) :: post) ∧
    ((∃ x ∈ lib, titleMatches title x = true) →
      (mark_as_read_unread title
        (mark_as_read_unread title lib st).1 st2).1 = lib) ∧
    ((∀ x ∈ lib, titleMatches title x = false) →
      mark_as_read_unread title lib st = (lib, st, "Book not found!\n")) := by
  refine ⟨?_, ?_, ?_⟩
  · intro hlib hpre hb
    subst hlib
    have ht := toggleFirst_first_match title pre post b hpre hb
    simp [mark_as_read_unread, ht]
  · intro hex
    obtain ⟨p, hp⟩ := toggleFirst_of_match title lib hex
    obtain ⟨p1, p2⟩ := p
    have ht2 := toggleFirst_twice title lib p1 p2 hp
    simp [mark_as_read_unread, hp, ht2]
  · intro hnone
    simp [mark_as_read_unread, toggleFirst_of_no_match title lib hnone]

theorem mark_as_read_unread_spec_witness :
    (mark_as_read_unread "Foundation"
       [⟨"Foundation", "Isaac Asimov", 1951, "Sci-Fi", false⟩]
       ⟨FileState.missing, FileState.missing⟩).1 =
      [⟨"Foundation", "Isaac Asimov", 1951, "Sci-Fi", true⟩] ∧
    (mark_as_read_unread "Foundation"
       (mark_as_read_unread "Foundation"
          [⟨"Foundation", "Isaac Asimov", 1951, "Sci-Fi", false⟩]
          ⟨FileState.missing, FileState.missing⟩).1
       ⟨FileState.missing, FileState.missing⟩).1 =
      [⟨"Foundation", "Isaac Asimov", 1951, "Sci-Fi", false⟩] ∧
    mark_as_read_unread "Dune"
       [⟨"Foundation", "Isaac Asimov", 1951, "Sci-Fi", false⟩]
       ⟨FileState.missing, FileState.missing⟩ =
      ([⟨"Foundation", "Isaac Asimov", 1951, "Sci-Fi", false⟩],
       ⟨FileState.missing, FileState.missing⟩, "Book not found!\n") :=
  ⟨(mark_as_read_unread_spec "Foundation"
      [⟨"Foundation", "Isaac Asimov", 1951, "Sci-Fi", false⟩] [] []
      ⟨"Foundation", "Isaac Asimov", 1951, "Sci-Fi", false⟩
      ⟨FileState.missing, FileState.missing⟩
      ⟨FileState.missing, FileState.missing⟩).1 rfl (by simp) (by decide),
   (mark_as_read_unread_spec "Foundation"
      [⟨"Foundation", "Isaac Asimov", 1951, "Sci-Fi", false⟩] [] []
      ⟨"Foundation", "Isaac Asimov", 1951, "Sci-Fi", false⟩
      ⟨FileState.missing, FileState.missing⟩
      ⟨FileState.missing, FileState.missing⟩).2.1 (by decide),
   (mark_as_read_unread_spec "Dune"
      [⟨"Foundation", "Isaac Asimov", 1951, "Sci-Fi", false⟩] [] []
      ⟨"Foundation", "Isaac Asimov", 1951, "Sci-Fi", false⟩
      ⟨FileState.missing, FileState.missing⟩
      ⟨FileState.missing, FileState.missing⟩).2.2 (by decide)⟩

/-- C7: `display_statistics` reports the record count as the total, reports
percentage 0 on an empty catalog (the zero total is special-cased, so no
division by zero occurs), reports (read count) / total * 100 on a non-empty
catalog, and in particular gives (0, 0) for the empty catalog and (4, 25)
for four records of which one is read. -/
theorem display_statistics_spec (lib : List Book) :
    (display_statistics lib).1 = lib.length ∧
    (lib = [] → display_statistics lib = (0, 0)) ∧
    (lib ≠ [] → (display_statistics lib).2 =
      ((lib.filter (fun b => b.read)).length : ℚ) / (lib.length : ℚ) * 100) ∧
    display_statistics
      [⟨"A", "a", 1000, "g", true⟩, ⟨"B", "b", 1001, "g", false⟩,
       ⟨"C", "c", 1002, "g", false⟩, ⟨"D", "d", 1003, "g", false⟩] =
      (4, 25) := by
  refine ⟨rfl, ?_, ?_, ?_⟩
  · intro h
    subst h
    simp [display_statistics]
  · intro h
    have hlen : lib.length ≠ 0 := by simpa using h
    simp [display_statistics, hlen]
  · norm_num [display_statistics, List.filter]

theorem display_statistics_spec_witness :
    ([] : List Book) = [] ∧
    display_statistics ([] : List Book) = (0, 0) ∧
    ([⟨"A", "a", 1000, "g", true⟩, ⟨"B", "b", 1001, "g", false⟩,
      ⟨"C", "c", 1002, "g", false⟩, ⟨"D", "d", 1003, "g", false⟩] :
       List Book) ≠ [] ∧
    (display_statistics
      [⟨"A", "a", 1000, "g", true⟩, ⟨"B", "b", 1001, "g", false⟩,
       ⟨"C", "c", 1002, "g", false⟩, ⟨"D", "d", 1003, "g", false⟩]).2 =
      ((([⟨"A", "a", 1000, "g", true⟩, ⟨"B", "b", 1001, "g", false⟩,
          ⟨"C", "c", 1002, "g", false⟩, ⟨"D", "d", 1003, "g", false⟩] :
            List Book).filter (fun b => b.read)).length : ℚ) /
        (([⟨"A", "a", 1000, "g", true⟩, ⟨"B", "b", 1001, "g", false⟩,
           ⟨"C", "c", 1002, "g", false⟩, ⟨"D", "d", 1003, "g", false⟩] :
             List Book).length : ℚ) * 100 :=
  ⟨rfl,
   (display_statistics_spec []).2.1 rfl,
   by decide,
   (display_statistics_spec
      [⟨"A", "a", 1000, "g", true⟩, ⟨"B", "b", 1001, "g", false⟩,
       ⟨"C", "c", 1002, "g", false⟩, ⟨"D", "d", 1003, "g", false⟩]).2.2.1
     (by decide)⟩

/-- C8: `add_book` appends nothing as long as every supplied year input
fails to be an integer in [1000, 9999] (the loop keeps re-requesting), and
once the retry loop yields a valid year the operation appends exactly one
record — with the given title, author, that year, the genre and the parsed
read status — at the end of the unchanged existing catalog, then saves. -/
theorem add_book_spec (title author genre readAnswer : String)
    (yearInputs : List String) (lib : List Book) (st : Storage) :
    (readYear yearInputs = none →
      add_book title author yearInputs genre readAnswer lib st = none) ∧
    (∀ y, readYear yearInputs = some y →
      (1000 ≤ y ∧ y ≤ 9999) ∧
      add_book title author yearInputs genre readAnswer lib st =
        some (lib ++
            [⟨title, author, y, genre, readStatusOfAnswer readAnswer⟩],
          save_library
            (lib ++ [⟨title, author, y, genre, readStatusOfAnswer readAnswer⟩])
            st)) := by
  constructor
  · intro h
    simp [add_book, h]
  · intro y hy
    exact ⟨readYear_range yearInputs y hy, by simp [add_book, hy]⟩

theorem add_book_spec_witness :
    readYear ["abc"] = none ∧
    add_book "Dune" "Frank Herbert" ["abc"] "Sci-Fi" "yes" []
      ⟨FileState.missing, FileState.missing⟩ = none ∧
    readYear ["never", "10000", "1965"] = some 1965 ∧
    ((1000 ≤ (1965 : Int) ∧ (1965 : Int) ≤ 9999) ∧
      add_book "Dune" "Frank Herbert" ["never", "10000", "1965"] "Sci-Fi"
        "yes" [] ⟨FileState.missing, FileState.missing⟩ =
        some ([] ++ [⟨"Dune", "Frank Herbert", 1965, "Sci-Fi",
                readStatusOfAnswer "yes"⟩],
          save_library
            ([] ++ [⟨"Dune", "Frank Herbert", 1965, "Sci-Fi",
                readStatusOfAnswer "yes"⟩])
            ⟨FileState.missing, FileState.missing⟩)) :=
  ⟨by decide,
   (add_book_spec "Dune" "Frank Herbert" "Sci-Fi" "yes" ["abc"] []
      ⟨FileState.missing, FileState.missing⟩).1 (by decide),
   by decide,
   (add_book_spec "Dune" "Frank Herbert" "Sci-Fi" "yes"
      ["never", "10000", "1965"] []
      ⟨FileState.missing, FileState.missing⟩).2 1965 (by decide)⟩

/-- C9: after each successful mutating operation — an `add_book` that
returned a new state, a confirmed `remove_book` with a match, a
`mark_as_read_unread` with a match — the primary file holds exactly the
serialization of the full current in-memory catalog and the backup file's
content is identical to the primary's. -/
theorem files_mirror_after_mutation
    (t a g r q c t2 : String) (ys : List String) (lib lib' : List Book)
    (st st' : Storage) :
    (add_book t a ys g r lib st = some (lib', st') →
      st'.primaryFile = FileState.stored (encodeLibrary lib') ∧
      st'.backupFile = st'.primaryFile) ∧
    (lib.filter (titleMatches q) ≠ [] → pyLower (pyStrip c) = "yes" →
      (remove_book q c lib st).2.1.primaryFile =
        FileState.stored (encodeLibrary (remove_book q c lib st).1) ∧
      (remove_book q c lib st).2.1.backupFile =
        (remove_book q c lib st).2.1.primaryFile) ∧
    ((∃ x ∈ lib, titleMatches t2 x = true) →
      (mark_as_read_unread t2 lib st).2.1.primaryFile =
        FileState.stored (encodeLibrary (mark_as_read_unread t2 lib st).1) ∧
      (mark_as_read_unread t2 lib st).2.1.backupFile =
        (mark_as_read_unread t2 lib st).2.1.primaryFile) := by
  refine ⟨?_, ?_, ?_⟩
  · intro h
    cases hr : readYear ys with
    | none => simp [add_book, hr] at h
    | some y =>
      simp only [add_book, hr, Option.some.injEq, Prod.mk.injEq] at h
      obtain ⟨h1, h2⟩ := h
      subst h1
      subst h2
      simp [save_library]
  · intro h1 h2
    simp [remove_book, h1, h2, save_library]
  · intro hex
    obtain ⟨p, hp⟩ := toggleFirst_of_match t2 lib hex
    obtain ⟨p1, p2⟩ := p
    simp [mark_as_read_unread, hp, save_library]

theorem files_mirror_after_mutation_witness :
    ((save_library
        ([⟨"Foundation", "Isaac Asimov", 1951, "Sci-Fi", false⟩] ++
          [⟨"Dune", "Frank Herbert", 1965, "Sci-Fi",
            readStatusOfAnswer "yes"⟩])
        ⟨FileState.missing, FileState.missing⟩).primaryFile =
      FileState.stored (encodeLibrary
        ([⟨"Foundation", "Isaac Asimov", 1951, "Sci-Fi", false⟩] ++
          [⟨"Dune", "Frank Herbert", 1965, "Sci-Fi",
            readStatusOfAnswer "yes"⟩])) ∧
     (save_library
        ([⟨"Foundation", "Isaac Asimov", 1951, "Sci-Fi", false⟩] ++
          [⟨"Dune", "Frank Herbert", 1965, "Sci-Fi",
            readStatusOfAnswer "yes"⟩])
        ⟨FileState.missing, FileState.missing⟩).backupFile =
      (save_library
        ([⟨"Foundation", "Isaac Asimov", 1951, "Sci-Fi", false⟩] ++
          [⟨"Dune", "Frank Herbert", 1965, "Sci-Fi",
            readStatusOfAnswer "yes"⟩])
        ⟨FileState.missing, FileState.missing⟩).primaryFile) ∧
    ((remove_book "Foundation" "yes"
        [⟨"Foundation", "Isaac Asimov", 1951, "Sci-Fi", false⟩]
        ⟨FileState.missing, FileState.missing⟩).2.1.primaryFile =
      FileState.stored (encodeLibrary
        (remove_book "Foundation" "yes"
          [⟨"Foundation", "Isaac Asimov", 1951, "Sci-Fi", false⟩]
          ⟨FileState.missing, FileState.missing⟩).1) ∧
     (remove_book "Foundation" "yes"
        [⟨"Foundation", "Isaac Asimov", 1951, "Sci-Fi", false⟩]
        ⟨FileState.missing, FileState.missing⟩).2.1.backupFile =
      (remove_book "Foundation" "yes"
        [⟨"Foundation", "Isaac Asimov", 1951, "Sci-Fi", false⟩]
        ⟨FileState.missing, FileState.missing⟩).2.1.primaryFile) ∧
    ((mark_as_read_unread "Foundation"
        [⟨"Foundation", "Isaac Asimov", 1951, "Sci-Fi", false⟩]
        ⟨FileState.missing, FileState.missing⟩).2.1.primaryFile =
      FileState.stored (encodeLibrary
        (mark_as_read_unread "Foundation"
          [⟨"Foundation", "Isaac Asimov", 1951, "Sci-Fi", false⟩]
          ⟨FileState.missing, FileState.missing⟩).1) ∧
     (mark_as_read_unread "Foundation"
        [⟨"Foundation", "Isaac Asimov", 1951, "Sci-Fi", false⟩]
        ⟨FileState.missing, FileState.missing⟩).2.1.backupFile =
      (mark_as_read_unread "Foundation"
        [⟨"Foundation", "Isaac Asimov", 1951, "Sci-Fi", false⟩]
        ⟨FileState.missing, FileState.missing⟩).2.1.primaryFile) :=
  ⟨(files_mirror_after_mutation "Dune" "Frank Herbert" "Sci-Fi" "yes"
      "Foundation" "yes" "Foundation" ["1965"]
      [⟨"Foundation", "Isaac Asimov", 1951, "Sci-Fi", false⟩]
      ([⟨"Foundation", "Isaac Asimov", 1951, "Sci-Fi", false⟩] ++
        [⟨"Dune", "Frank Herbert", 1965, "Sci-Fi",
          readStatusOfAnswer "yes"⟩])
      ⟨FileState.missing, FileState.missing⟩
      (save_library
        ([⟨"Foundation", "Isaac Asimov", 1951, "Sci-Fi", false⟩] ++
          [⟨"Dune", "Frank Herbert", 1965, "Sci-Fi",
            readStatusOfAnswer "yes"⟩])
        ⟨FileState.missing, FileState.missing⟩)).1 (by rfl),
   (files_mirror_after_mutation "Dune" "Frank Herbert" "Sci-Fi" "yes"
      "Foundation" "yes" "Foundation" ["1965"]
      [⟨"Foundation", "Isaac Asimov", 1951, "Sci-Fi", false⟩]
      [] ⟨FileState.missing, FileState.missing⟩
      ⟨FileState.missing, FileState.missing⟩).2.1 (by decide) (by decide),
   (files_mirror_after_mutation "Dune" "Frank Herbert" "Sci-Fi" "yes"
      "Foundation" "yes" "Foundation" ["1965"]
      [⟨"Foundation", "Isaac Asimov", 1951, "Sci-Fi", false⟩]
      [] ⟨FileState.missing, FileState.missing⟩
      ⟨FileState.missing, FileState.missing⟩).2.2 (by decide)⟩

/-- C10: the read flag `add_book` records is true exactly when the supplied
answer, stripped of surrounding whitespace and lowercased, is the string
"yes"; answers such as "y", "true" and "" give false while " YES " gives
true; and `add_book` never stalls on this field — it returns no state only
when the year loop got no valid year, whatever the read-status answer. -/
theorem read_status_spec (ans : String) :
    (readStatusOfAnswer ans = true ↔ pyLower (pyStrip ans) = "yes") ∧
    (∀ t a g ys lib st,
      (add_book t a ys g ans lib st = none ↔ readYear ys = none)) ∧
    readStatusOfAnswer "yes" = true ∧
    readStatusOfAnswer " YES " = true ∧
    readStatusOfAnswer "y" = false ∧
    readStatusOfAnswer "true" = false ∧
    readStatusOfAnswer "" = false := by
  refine ⟨?_, ?_, by decide, by decide, by decide, by decide, by decide⟩
  · simp [readStatusOfAnswer]
  · intro t a g ys lib st
    cases h : readYear ys with
    | none => simp [add_book, h]
    | some y => simp [add_book, h]

theorem read_status_spec_witness :
    readStatusOfAnswer "y" = false ∧
    (add_book "Dune" "Frank Herbert" [] "Sci-Fi" "y" []
        ⟨FileState.missing, FileState.missing⟩ = none ↔
      readYear [] = none) :=
  ⟨(read_status_spec "y").2.2.2.2.1,
   (read_status_spec "y").2.1 "Dune" "Frank Herbert" "Sci-Fi" [] []
     ⟨FileState.missing, FileState.missing⟩⟩
